import Mathlib

/-!
Verification of the tanks-and-taps routing core of this repository:
the sink lookup and chain-resolution algorithm of
`libraries/protocol/tnt/lookups.cpp`, the `asset_store` conservation
primitive of `libraries/protocol/include/graphene/protocol/asset.hpp`,
and `tank_object::clear_tap_state` of `libraries/chain/tnt/object.cpp`.

The C++ is shallowly embedded: identifiers are machine integers modelled
as `Nat`, signed share quantities as `Int`, `static_variant` result types
as inductives, `std::map` lookups as functions/sorted association lists,
and fatal `FC_ASSERT` conditions as `Option`/`none` outcomes.
-/

namespace TNT

abbrev AssetId := Nat
abbrev AccountId := Nat
abbrev TankId := Nat
abbrev share_type := Int

/-- `attachment_id_type`: an attachment address; `tank_id = none` means
"the tank currently being evaluated". -/
structure attachment_id_type where
  tank_id : Option TankId
  attachment_index : Nat
deriving DecidableEq, Repr

/-- The `sink` variant: same tank, an account, another tank, or an attachment. -/
inductive sink where
  | same_tank
  | account (id : AccountId)
  | tank (id : TankId)
  | attachment (id : attachment_id_type)
deriving DecidableEq, Repr

/-- Modelled from the spec: `tank_attachment` (declared in headers not in src/)
is polymorphic over a closed set of attachment kinds, each exposing exactly the
two queries `receives_asset() -> optional AssetId` and
`output_sink() -> optional Sink`; `lookups.cpp` only ever dispatches to these
two queries, so the embedding records the two query results directly. -/
structure tank_attachment where
  receives_asset : Option AssetId
  output_sink : Option sink

/-- `tank_schematic` restricted to the fields `lookups.cpp` reads: the tank's
asset type and its attachment map. The `std::map<index, tank_attachment>` and
its `find` are embedded as a partial function from index to attachment. -/
structure tank_schematic where
  asset_type : AssetId
  attachments : Nat → Option tank_attachment

/-- Payload of `nonexistent_object{id}`: the offending id is either a tank id
or an attachment id. -/
inductive object_id where
  | tank (id : TankId)
  | attachment (id : attachment_id_type)
deriving DecidableEq, Repr

/-- `lookup_result<Result>`: success holds a (borrowed) `Result`; the error
variants are `need_lookup_function` and `nonexistent_object`. -/
inductive lookup_result (α : Type) where
  | success (value : α)
  | need_lookup_function
  | nonexistent_object (id : object_id)

/-- `attachment_asset`: result of `get_attachment_asset`. -/
inductive attachment_asset where
  | asset_id (a : AssetId)
  | no_asset (id : attachment_id_type)
  | need_lookup_function
  | nonexistent_object (id : object_id)
deriving DecidableEq, Repr

/-- `sink_asset`: result of `get_sink_asset`; adds `any_asset` (an account
accepts any asset) to the variants of `attachment_asset`. -/
inductive sink_asset where
  | asset_id (a : AssetId)
  | any_asset
  | no_asset (id : attachment_id_type)
  | need_lookup_function
  | nonexistent_object (id : object_id)
deriving DecidableEq, Repr

inductive bad_sink_reason where
  | receives_no_asset
  | receives_wrong_asset
deriving DecidableEq, Repr

/-- The offending subject recorded in a `bad_sink` error: `lookups.cpp` stores
an attachment id at line 88 and a sink at lines 120/123. -/
inductive bad_sink_subject where
  | attachment (id : attachment_id_type)
  | sink (s : sink)
deriving DecidableEq, Repr

structure bad_sink where
  reason : bad_sink_reason
  subject : bad_sink_subject
deriving DecidableEq, Repr

/-- `attachment_sink_result`: result of `get_attachment_sink`. -/
inductive attachment_sink_result where
  | success (s : sink)
  | need_lookup_function
  | nonexistent_object (id : object_id)
  | bad_sink (b : bad_sink)
deriving DecidableEq, Repr

/-- Modelled from the spec: `sink_chain` (declared in lookups.hpp, not in src/)
holds the ordered sequence of sinks walked so far plus the "current resolution
tank" context `final_sink_tank`; its constructor `sink_chain(s)` starts the
sequence at `s` with no tank context yet (relative addresses then resolve
against the current tank, matching `lookup_tank(none)`). -/
structure sink_chain where
  sinks : List sink
  final_sink_tank : Option TankId
deriving DecidableEq, Repr

/-- `sink_chain_result`: result of `get_sink_chain`. -/
inductive sink_chain_result where
  | chain (c : sink_chain)
  | need_lookup_function
  | nonexistent_object (id : object_id)
  | bad_sink (b : bad_sink)
  | exceeded_max_chain_length
deriving DecidableEq, Repr

/-- `is_error` for `lookup_result` (lookups.cpp line 32): anything but the
success reference is an error. -/
def lookup_result.is_error : lookup_result α → Bool
  | .success _ => false
  | _ => true

/-- `is_error` for `sink_asset` (line 33): only `need_lookup_function` and
`nonexistent_object` count as errors. -/
def sink_asset.is_error : sink_asset → Bool
  | .need_lookup_function => true
  | .nonexistent_object _ => true
  | _ => false

/-- `is_error` for `attachment_asset` (line 34): anything but `asset_id`. -/
def attachment_asset.is_error : attachment_asset → Bool
  | .asset_id _ => false
  | _ => true

/-- `is_error` for `sink_chain_result` (line 35): anything but a chain. -/
def sink_chain_result.is_error : sink_chain_result → Bool
  | .chain _ => false
  | _ => true

/-- `is_error` for `attachment_sink_result` (line 36): anything but a sink. -/
def attachment_sink_result.is_error : attachment_sink_result → Bool
  | .success _ => false
  | _ => true

/-- Modelled from the spec: `is_terminal_sink` is declared in lookups.hpp
(not in src/). Per §3, `Account` and other non-redirecting sinks are terminal;
only attachment sinks redirect — the walk in `get_sink_chain` unconditionally
reads `get<attachment_id_type>()` out of every non-terminal sink. -/
def is_terminal_sink : sink → Bool
  | .attachment _ => false
  | _ => true

/-- `lookup_utilities` state: the current tank's schematic and the optional
`get_tank` callback (a null `std::function`, or a function returning a null
pointer for a nonexistent tank). -/
structure lookup_utilities where
  current_tank : tank_schematic
  get_tank : Option (TankId → Option tank_schematic)

/-- `lookup_utilities::lookup_tank` (lookups.cpp lines 38-46). -/
def lookup_utilities.lookup_tank (u : lookup_utilities) (id : Option TankId) :
    lookup_result tank_schematic :=
  match id with
  | none => .success u.current_tank
  | some i =>
    match u.get_tank with
    | none => .need_lookup_function
    | some f =>
      match f i with
      | none => .nonexistent_object (.tank i)
      | some t => .success t

/-- `lookup_utilities::lookup_attachment` (lines 48-59); the `import_from`
re-tagging of a failed tank lookup is the constructor-wise re-tagging of the
two error variants. -/
def lookup_utilities.lookup_attachment (u : lookup_utilities)
    (id : attachment_id_type) : lookup_result tank_attachment :=
  match u.lookup_tank id.tank_id with
  | .need_lookup_function => .need_lookup_function
  | .nonexistent_object o => .nonexistent_object o
  | .success tank =>
    match tank.attachments id.attachment_index with
    | some att => .success att
    | none => .nonexistent_object (.attachment id)

/-- `lookup_utilities::get_attachment_asset` (lines 61-75). -/
def lookup_utilities.get_attachment_asset (u : lookup_utilities)
    (id : attachment_id_type) : attachment_asset :=
  match u.lookup_attachment id with
  | .need_lookup_function => .need_lookup_function
  | .nonexistent_object o => .nonexistent_object o
  | .success att =>
    match att.receives_asset with
    | some a => .asset_id a
    | none => .no_asset id

/-- `lookup_utilities::get_attachment_sink` (lines 77-90). -/
def lookup_utilities.get_attachment_sink (u : lookup_utilities)
    (id : attachment_id_type) : attachment_sink_result :=
  match u.lookup_attachment id with
  | .need_lookup_function => .need_lookup_function
  | .nonexistent_object o => .nonexistent_object o
  | .success att =>
    match att.output_sink with
    | some s => .success s
    | none => .bad_sink ⟨.receives_no_asset, .attachment id⟩

/-- The implicit conversion of an `attachment_asset` into the wider
`sink_asset` variant (used by the attachment case of `get_sink_asset`). -/
def attachment_asset.to_sink_asset : attachment_asset → sink_asset
  | .asset_id a => .asset_id a
  | .no_asset id => .no_asset id
  | .need_lookup_function => .need_lookup_function
  | .nonexistent_object o => .nonexistent_object o

/-- `lookup_utilities::get_sink_asset` (lines 92-108). -/
def lookup_utilities.get_sink_asset (u : lookup_utilities) : sink → sink_asset
  | .same_tank => .asset_id u.current_tank.asset_type
  | .account _ => .any_asset
  | .tank id =>
    match u.lookup_tank (some id) with
    | .need_lookup_function => .need_lookup_function
    | .nonexistent_object o => .nonexistent_object o
    | .success t => .asset_id t.asset_type
  | .attachment id => (u.get_attachment_asset id).to_sink_asset

/-- The `check_asset` lambda of `get_sink_chain` (lines 112-125): `none` means
the sink passed (or no required asset / no lookup capability), `some r` is the
result to return. Note that `need_lookup_function` from `get_sink_asset` is
explicitly tolerated (line 116). -/
def lookup_utilities.check_asset (u : lookup_utilities)
    (asset_type : Option AssetId) (s : sink) : Option sink_chain_result :=
  match asset_type with
  | none => none
  | some required =>
    match u.get_sink_asset s with
    | .any_asset => none
    | .need_lookup_function => none
    | .asset_id a =>
      if a = required then none
      else some (.bad_sink ⟨.receives_wrong_asset, .sink s⟩)
    | .no_asset _ => some (.bad_sink ⟨.receives_no_asset, .sink s⟩)
    | .nonexistent_object o => some (.nonexistent_object o)

/-- The while-loop of `get_sink_chain` (lines 130-148). The chain built so far
is `rest_rev.reverse ++ [last]` (so `last` is `chain.sinks.back()` and the
chain's size is `rest_rev.length + 1`); `s` is the loop variable of the same
name, re-assigned to `chain.sinks.back()` at the top of each iteration (line
134) and read by the final check after the loop (line 150). `budget` is
`max_chain_length + 1 - chain.sinks.size()`, so `budget = 0` holds exactly
when `chain.sinks.size() > max_chain_length` (line 131) and decrementing it
mirrors the `push_back` of line 147. -/
def lookup_utilities.get_sink_chain_go (u : lookup_utilities)
    (asset_type : Option AssetId) (rest_rev : List sink) (last : sink)
    (final_sink_tank : Option TankId) (s : sink) (budget : Nat) :
    sink_chain_result :=
  match last with
  | .attachment aid =>
    match budget with
    | 0 => .exceeded_max_chain_length
    | budget' + 1 =>
      let attachment_id : attachment_id_type :=
        match aid.tank_id with
        | some _ => aid
        | none => ⟨final_sink_tank, aid.attachment_index⟩
      let final_sink_tank' : Option TankId :=
        match aid.tank_id with
        | some t => some t
        | none => final_sink_tank
      match u.get_attachment_sink attachment_id with
      | .need_lookup_function => .need_lookup_function
      | .nonexistent_object o => .nonexistent_object o
      | .bad_sink b => .bad_sink b
      | .success next =>
        match u.check_asset asset_type (sink.attachment aid) with
        | some r => r
        | none =>
          u.get_sink_chain_go asset_type (sink.attachment aid :: rest_rev)
            next final_sink_tank' (sink.attachment aid) budget'
  | _ =>
    match u.check_asset asset_type s with
    | some r => r
    | none => .chain ⟨(last :: rest_rev).reverse, final_sink_tank⟩

/-- `lookup_utilities::get_sink_chain` (lines 110-153): check the start sink,
then walk the chain. -/
def lookup_utilities.get_sink_chain (u : lookup_utilities) (s : sink)
    (max_chain_length : Nat) (asset_type : Option AssetId) :
    sink_chain_result :=
  match u.check_asset asset_type s with
  | some r => r
  | none => u.get_sink_chain_go asset_type [] s none s max_chain_length

/-! ## asset_store (asset.hpp lines 221-382) -/

/-- `asset` value pair (asset.hpp lines 33-39): a signed amount and an asset id. -/
structure asset where
  amount : share_type
  asset_id : AssetId
deriving DecidableEq, Repr

/-- `asset_store` (asset.hpp lines 236-337): the stored asset plus the mutable
`serialized` flag (false on construction, set by the serialization hooks,
cleared by `destroy`). -/
structure asset_store where
  store_amount : asset
  serialized : Bool
deriving DecidableEq, Repr

/-- Default-constructed `asset_store` (line 284): default `asset` is
`asset(0, asset_id_type())` and `serialized = false`. -/
def asset_store.mk_default : asset_store := ⟨⟨0, 0⟩, false⟩

def asset_store.amount (s : asset_store) : share_type := s.store_amount.amount

def asset_store.asset_type (s : asset_store) : AssetId := s.store_amount.asset_id

def asset_store.is_empty (s : asset_store) : Bool := s.store_amount.amount == 0

/-- `asset_store::unchecked_create` (lines 274-278). -/
def asset_store.unchecked_create (storage : asset) : asset_store := ⟨storage, false⟩

/-- `asset_store::destroy` (lines 240-245): `FC_ASSERT(amount == 0 || serialized)`
then reset the flag and zero the amount. A failed `FC_ASSERT` is the fatal
invariant violation, embedded as `none`. -/
def asset_store.destroy (s : asset_store) : Option asset_store :=
  if s.store_amount.amount = 0 ∨ s.serialized = true then
    some ⟨⟨0, s.store_amount.asset_id⟩, false⟩
  else none

/-- Move assignment `asset_store::operator=(asset_store&&)` (lines 293-298):
destroy the target (fatal if it leaks), copy the source's stored asset over,
zero the source's amount. Returns (new target, new source). -/
def asset_store.move_assign (target other : asset_store) :
    Option (asset_store × asset_store) :=
  match target.destroy with
  | none => none
  | some t =>
    some ({t with store_amount := other.store_amount},
          {other with store_amount := ⟨0, other.store_amount.asset_id⟩})

/-- The serialization hooks (lines 353-368): `to_variant`, `from_variant`,
`pack` and `unpack` all set `serialized = true` ("mark observed") before/after
translating `store_amount`. -/
def asset_store.mark_serialized (s : asset_store) : asset_store :=
  {s with serialized := true}

/-- Modelled from the spec: `asset_store::to(destination, amount)` is declared
at asset.hpp line 316 but defined in `asset.cpp`, which is not in src/. Per
§4.2, the transfer requires `0 ≤ amount ≤ source.amount()`, requires the
destination to be empty or of the source's asset type (a store holds at most
one asset type at a time), decrements the source and increments the
destination by exactly `amount`, and is a modification (so it clears both
stores' "observed" marks, per the doc comment at asset.hpp lines 233-235).
Violated preconditions are fatal invariant violations, embedded as `none`.
Returns (new source, new destination). -/
def asset_store.transfer (source destination : asset_store)
    (amount : share_type) : Option (asset_store × asset_store) :=
  if amount < 0 ∨ source.store_amount.amount < amount then none
  else if destination.store_amount.amount ≠ 0 ∧
          destination.store_amount.asset_id ≠ source.store_amount.asset_id then
    none
  else
    some (⟨⟨source.store_amount.amount - amount, source.store_amount.asset_id⟩, false⟩,
          ⟨⟨destination.store_amount.amount + amount, source.store_amount.asset_id⟩, false⟩)

/-- `asset_store::mover` (lines 252-266): a single-use handle remembering the
source store and the amount to move. -/
structure mover where
  source : asset_store
  amount : share_type

/-- `asset_store::move` (line 312). -/
def asset_store.move (s : asset_store) (amount : share_type) : mover :=
  ⟨s, amount⟩

/-- `mover::to` (line 261): complete the transfer into `destination`. -/
def mover.to (m : mover) (destination : asset_store) :
    Option (asset_store × asset_store) :=
  asset_store.transfer m.source destination m.amount

/-- `mover::operator asset_store()` (line 263): complete the transfer into a
fresh default-constructed store. -/
def mover.to_new_store (m : mover) : Option (asset_store × asset_store) :=
  asset_store.transfer m.source asset_store.mk_default m.amount

/-- A move step among a collection of stores: either move `amount` from the
store at index `src` to the store at index `dst`
(`stores[src].move(amount).to(stores[dst])`), or move it into a fresh store
appended to the collection (`asset_store fresh = stores[src].move(amount)`). -/
inductive move_op where
  | to_existing (src dst : Nat) (amount : share_type)
  | to_new (src : Nat) (amount : share_type)

/-- Apply a single `move_op` to a collection of stores; `none` on a fatal
invariant violation (or an out-of-range / aliased index, which has no
counterpart in the two-store C++ call). -/
def apply_move (stores : List asset_store) : move_op → Option (List asset_store)
  | .to_existing i j amt =>
    if h : i < stores.length ∧ j < stores.length ∧ i ≠ j then
      match (asset_store.move (stores.get ⟨i, h.1⟩) amt).to
              (stores.get ⟨j, h.2.1⟩) with
      | none => none
      | some (s2, d2) => some ((stores.set i s2).set j d2)
    else none
  | .to_new i amt =>
    if h : i < stores.length then
      match (asset_store.move (stores.get ⟨i, h⟩) amt).to_new_store with
      | none => none
      | some (s2, d2) => some (stores.set i s2 ++ [d2])
    else none

/-- Apply a sequence of `move_op`s left to right. -/
def apply_moves (stores : List asset_store) : List move_op → Option (List asset_store)
  | [] => some stores
  | op :: ops =>
    match apply_move stores op with
    | none => none
    | some stores2 => apply_moves stores2 ops

/-- Sum of the `amount()` values of a collection of stores. -/
def total_amount (stores : List asset_store) : share_type :=
  (stores.map asset_store.amount).sum

/-! ## tank_object::clear_tap_state (object.cpp lines 31-35) -/

/-- The `std::map` key order on `(tap index, sub index)` pairs:
lexicographic. -/
def key_lt (a b : Nat × Nat) : Bool :=
  a.1 < b.1 || (a.1 = b.1 && a.2 < b.2)

/-- `tank_object` restricted to the field `clear_tap_state` touches: the
`requirement_states` map from `(tap index, sub index)` to an opaque per-tap
state (embedded as a key-sorted association list, the representation of
`std::map` iteration order). -/
structure tank_object where
  requirement_states : List ((Nat × Nat) × Nat)
deriving DecidableEq, Repr

/-- `tank_object::clear_tap_state` (object.cpp lines 31-35):
`lower_bound(make_pair(tap_ID, 0))` positions at the first entry with key
`≥ (tap_ID, 0)` — on the sorted sequence, after the prefix of keys
`< (tap_ID, 0)` — then entries are erased while the key's first component
equals `tap_ID`. -/
def tank_object.clear_tap_state (o : tank_object) (tap_ID : Nat) : tank_object :=
  let before := o.requirement_states.takeWhile (fun e => key_lt e.1 (tap_ID, 0))
  let from_lb := o.requirement_states.dropWhile (fun e => key_lt e.1 (tap_ID, 0))
  ⟨before ++ from_lb.dropWhile (fun e => e.1.1 == tap_ID)⟩

/-- The `std::map` invariant: keys strictly increase in iteration order. -/
abbrev states_sorted (l : List ((Nat × Nat) × Nat)) : Prop :=
  l.Pairwise (fun a b => key_lt a.1 b.1 = true)

/-! ## Concrete fixtures and parametric tank families used by the theorems -/

/-- A `lookup_utilities` with no `get_tank` capability and an empty current
tank of asset type 0. -/
def no_lookup_utils : lookup_utilities := ⟨⟨0, fun _ => none⟩, none⟩

/-- Current tank of asset type 0 whose attachment 0 accepts asset 0 and
redirects to tank 2; `get_tank` knows tank 2, of asset type 1. A chain from
attachment 0 therefore ends in the terminal sink `tank 2`, whose accepted
asset 1 differs from required asset 0. -/
def tank2_utils : lookup_utilities :=
  ⟨⟨0, fun i => if i = 0 then some ⟨some 0, some (.tank 2)⟩ else none⟩,
   some (fun t => if t = 2 then some ⟨1, fun _ => none⟩ else none)⟩

/-- Tank 7: attachment 0 redirects to attachment 1 of tank 7, and attachment 1
redirects back to attachment 0 of tank 7 — the two-element redirection cycle
of the spec's chain-termination example. -/
def cycle2_utils : lookup_utilities :=
  ⟨⟨0, fun _ => none⟩,
   some (fun t => if t = 7 then
      some ⟨0, fun i =>
        if i = 0 then some ⟨none, some (.attachment ⟨some 7, 1⟩)⟩
        else if i = 1 then some ⟨none, some (.attachment ⟨some 7, 0⟩)⟩
        else none⟩
    else none)⟩

/-- A single tank whose attachment `i` (for `i < L`) redirects to attachment
`(i+1) % L` of the same tank: a pure redirection cycle of length `L`. -/
def cycle_utils (L : Nat) : lookup_utilities :=
  ⟨⟨0, fun i =>
      if i < L then some ⟨none, some (.attachment ⟨none, (i+1) % L⟩)⟩
      else none⟩, none⟩

/-- A single tank whose attachment `i` (for `i < L`) redirects to attachment
`i+1`, except that the last attachment `L-1` redirects to an account: a
straight redirection line of `L` attachments ending in a terminal sink. -/
def line_utils (L : Nat) : lookup_utilities :=
  ⟨⟨0, fun i =>
      if i < L then
        some ⟨none, some (if i+1 < L then .attachment ⟨none, i+1⟩ else .account 0)⟩
      else none⟩, none⟩

/-- The fully resolved chain walked on `line_utils L` starting at
attachment 0: attachments `0..L-1`, then the terminal account. -/
def line_chain (L : Nat) : List sink :=
  (List.range L).map (fun i => .attachment ⟨none, i⟩) ++ [.account 0]

/-- A tank of asset type `y` whose attachments `0..n-1` accept asset `y` and
redirect down the line, while attachment `n` accepts asset `x` and redirects
to an account: a chain with one wrong-asset hop before a terminal account. -/
def wrong_hop_utils (n : Nat) (x y : AssetId) : lookup_utilities :=
  ⟨⟨y, fun i =>
      if i < n then some ⟨some y, some (.attachment ⟨none, i+1⟩)⟩
      else if i = n then some ⟨some x, some (.account 0)⟩
      else none⟩, none⟩

/-- The requirement-state map of the spec's tap-state clearing example:
keys (0,0), (0,1), (1,0), (2,0). -/
def example_tank : tank_object :=
  ⟨[((0,0),10), ((0,1),11), ((1,0),12), ((2,0),13)]⟩

/-- Two same-asset stores holding 5 and 3 of asset 1. -/
def example_stores : List asset_store := [⟨⟨5, 1⟩, false⟩, ⟨⟨3, 1⟩, false⟩]

/-- Two example moves: 2 units from store 0 to store 1, then 4 units from
store 1 into a fresh store. -/
def example_moves : List move_op := [.to_existing 0 1 2, .to_new 1 4]

/-! ## Helper lemmas -/

lemma transfer_amount_eq {src dst s2 d2 : asset_store} {amt : share_type}
    (h : asset_store.transfer src dst amt = some (s2, d2)) :
    s2.amount = src.amount - amt ∧ d2.amount = dst.amount + amt
    ∧ s2.serialized = false ∧ d2.serialized = false := by
  unfold asset_store.transfer at h
  split at h
  · exact absurd h (by simp)
  split at h
  · exact absurd h (by simp)
  simp only [Option.some.injEq, Prod.mk.injEq] at h
  obtain ⟨h1, h2⟩ := h
  subst h1; subst h2
  refine ⟨rfl, rfl, rfl, rfl⟩

lemma total_amount_cons (a : asset_store) (t : List asset_store) :
    total_amount (a :: t) = a.amount + total_amount t := by
  simp [total_amount]

lemma total_amount_set : ∀ (l : List asset_store) (i : Nat) (x : asset_store)
    (h : i < l.length),
    total_amount (l.set i x) = total_amount l - (l.get ⟨i, h⟩).amount + x.amount
  | a :: t, 0, x, _ => by
    simp only [List.set_cons_zero, total_amount_cons, List.get]
    ring
  | a :: t, i+1, x, h => by
    have ih := total_amount_set t i x (by simpa using h)
    simp only [List.set_cons_succ, total_amount_cons, List.get, ih]
    ring

lemma total_amount_append (l m : List asset_store) :
    total_amount (l ++ m) = total_amount l + total_amount m := by
  simp [total_amount]

lemma apply_move_total {stores stores2 : List asset_store} {op : move_op}
    (h : apply_move stores op = some stores2) :
    total_amount stores2 = total_amount stores := by
  cases op with
  | to_existing i j amt =>
    simp only [apply_move] at h
    split at h
    case isFalse => exact absurd h (by simp)
    case isTrue hij =>
      rcases htr : (asset_store.move (stores.get ⟨i, hij.1⟩) amt).to
          (stores.get ⟨j, hij.2.1⟩) with _ | ⟨s2, d2⟩
      · rw [htr] at h; exact absurd h (by simp)
      rw [htr] at h
      simp only [Option.some.injEq] at h
      subst h
      simp only [mover.to, asset_store.move] at htr
      obtain ⟨hs, hd, -, -⟩ := transfer_amount_eq htr
      have hjlen : j < (stores.set i s2).length := by
        simpa using hij.2.1
      have hget : (stores.set i s2).get ⟨j, hjlen⟩ = stores.get ⟨j, hij.2.1⟩ := by
        simp only [List.get_eq_getElem]
        exact List.getElem_set_ne hij.2.2 hjlen
      rw [total_amount_set _ j d2 hjlen, hget,
          total_amount_set stores i s2 hij.1, hs, hd]
      ring
  | to_new i amt =>
    simp only [apply_move] at h
    split at h
    case isFalse => exact absurd h (by simp)
    case isTrue hi =>
      rcases htr : (asset_store.move (stores.get ⟨i, hi⟩) amt).to_new_store
        with _ | ⟨s2, d2⟩
      · rw [htr] at h; exact absurd h (by simp)
      rw [htr] at h
      simp only [Option.some.injEq] at h
      subst h
      simp only [mover.to_new_store, asset_store.move] at htr
      obtain ⟨hs, hd, -, -⟩ := transfer_amount_eq htr
      have hd0 : d2.amount = amt := by
        simpa [asset_store.mk_default, asset_store.amount] using hd
      rw [total_amount_append, total_amount_set stores i s2 hi, hs,
          total_amount_cons, hd0]
      simp [total_amount]

lemma apply_moves_total : ∀ (ops : List move_op)
    (stores stores2 : List asset_store),
    apply_moves stores ops = some stores2 →
    total_amount stores2 = total_amount stores
  | [], stores, stores2, h => by
    simp only [apply_moves, Option.some.injEq] at h
    rw [h]
  | op :: ops, stores, stores2, h => by
    unfold apply_moves at h
    rcases hm : apply_move stores op with _ | mid
    · rw [hm] at h; exact absurd h (by simp)
    rw [hm] at h
    have := apply_moves_total ops mid stores2 h
    rw [this, apply_move_total hm]

/-! ## Claim theorems -/

/-- C1: the spec says that once the chain's last sink is terminal, a final
asset-compatibility check is performed on that terminal sink, so a chain
ending in an incompatible terminal sink yields `BadSink` and never a
successful chain. The code violates this: the post-loop check at lookups.cpp
line 150 re-checks the loop variable `s` — which still holds the penultimate
sink, already checked at line 145 (or line 126) — rather than
`chain.sinks.back()`. On `tank2_utils`, resolving attachment 0 with required
asset 0 returns the completed chain ending in the terminal sink `tank 2`,
even though that sink's accepted asset is 1 and `check_asset` applied to it
would reject with `BadSink(ReceivesWrongAsset)`. -/
theorem C1_terminal_sink_check_skipped :
    tank2_utils.get_sink_chain (.attachment ⟨none, 0⟩) 5 (some 0)
      = .chain ⟨[.attachment ⟨none, 0⟩, .tank 2], none⟩
    ∧ tank2_utils.get_sink_asset (.tank 2) = .asset_id 1
    ∧ tank2_utils.check_asset (some 0) (.tank 2)
      = some (.bad_sink ⟨.receives_wrong_asset, .sink (.tank 2)⟩) := by
  exact ⟨by decide, by decide, by decide⟩

/-- C3: destroying, or move-assigning over, an `asset_store` whose amount is
nonzero and whose observed (`serialized`) mark is clear is a fatal invariant
violation; if the mark is set — as the serialization hooks do — destruction
and move-assignment raise no violation; and a transfer (a modification)
clears the mark on both stores involved. -/
theorem C3_fatal_on_leak :
    (∀ s : asset_store, s.amount ≠ 0 → s.serialized = false →
       s.destroy = none ∧ ∀ o, s.move_assign o = none)
  ∧ (∀ s : asset_store, s.serialized = true →
       (s.destroy).isSome = true ∧ ∀ o, (s.move_assign o).isSome = true)
  ∧ (∀ s : asset_store, ((s.mark_serialized).destroy).isSome = true
       ∧ ∀ o, ((s.mark_serialized).move_assign o).isSome = true)
  ∧ (∀ (src dst s2 d2 : asset_store) (amt : share_type),
       asset_store.transfer src dst amt = some (s2, d2) →
       s2.serialized = false ∧ d2.serialized = false) := by
  refine ⟨fun s h1 h2 => ⟨?_, fun o => ?_⟩,
          fun s h => ⟨?_, fun o => ?_⟩,
          fun s => ⟨?_, fun o => ?_⟩,
          fun src dst s2 d2 amt h => ?_⟩
  · simp [asset_store.destroy, asset_store.amount] at h1 ⊢
    exact ⟨h1, h2⟩
  · have hd : s.destroy = none := by
      simp [asset_store.destroy, asset_store.amount] at h1 ⊢
      exact ⟨h1, h2⟩
    simp [asset_store.move_assign, hd]
  · simp [asset_store.destroy, h]
  · simp [asset_store.move_assign, asset_store.destroy, h]
  · simp [asset_store.destroy, asset_store.mark_serialized]
  · simp [asset_store.move_assign, asset_store.destroy, asset_store.mark_serialized]
  · obtain ⟨-, -, h1, h2⟩ := transfer_amount_eq h
    exact ⟨h1, h2⟩

/-- Witness for C3 at a concrete store: amount 4 of asset 1, mark clear —
destruction is a violation; after marking observed it is not. -/
theorem C3_fatal_on_leak_witness :
    (asset_store.destroy ⟨⟨4, 1⟩, false⟩ = none)
    ∧ ((asset_store.mark_serialized ⟨⟨4, 1⟩, false⟩).destroy).isSome = true :=
  ⟨(C3_fatal_on_leak.1 ⟨⟨4, 1⟩, false⟩ (by decide) (by decide)).1,
   (C3_fatal_on_leak.2.2.1 ⟨⟨4, 1⟩, false⟩).1⟩

/-- C7: errors propagate by re-tagging with identity preserved: a failed tank
lookup re-tags into `lookup_attachment` unchanged, and a failed attachment
lookup re-tags into `get_attachment_asset` and `get_attachment_sink`
unchanged (same variant, same offending id). -/
theorem C7_error_retagging (u : lookup_utilities) (id : attachment_id_type) :
    (u.lookup_tank id.tank_id = .need_lookup_function →
       u.lookup_attachment id = .need_lookup_function)
  ∧ (∀ o, u.lookup_tank id.tank_id = .nonexistent_object o →
       u.lookup_attachment id = .nonexistent_object o)
  ∧ (u.lookup_attachment id = .need_lookup_function →
       u.get_attachment_asset id = .need_lookup_function
       ∧ u.get_attachment_sink id = .need_lookup_function)
  ∧ (∀ o, u.lookup_attachment id = .nonexistent_object o →
       u.get_attachment_asset id = .nonexistent_object o
       ∧ u.get_attachment_sink id = .nonexistent_object o) := by
  refine ⟨fun h => ?_, fun o h => ?_,
          fun h => ⟨?_, ?_⟩, fun o h => ⟨?_, ?_⟩⟩
  · simp [lookup_utilities.lookup_attachment, h]
  · simp [lookup_utilities.lookup_attachment, h]
  · simp [lookup_utilities.get_attachment_asset, h]
  · simp [lookup_utilities.get_attachment_sink, h]
  · simp [lookup_utilities.get_attachment_asset, h]
  · simp [lookup_utilities.get_attachment_sink, h]

/-- Witness for C7: with no `get_tank`, the tank lookup of attachment
(tank 3, index 0) fails with `NeedLookupFunction`, and `lookup_attachment`
re-tags exactly that error. -/
theorem C7_error_retagging_witness :
    no_lookup_utils.lookup_attachment ⟨some 3, 0⟩ = .need_lookup_function :=
  (C7_error_retagging no_lookup_utils ⟨some 3, 0⟩).1 rfl

/-- C2: conservation: a completed transfer (`source.move(amount).to(dest)`)
decreases the source's amount and increases the destination's amount by
exactly the moved amount; a transfer into a fresh store
(`mover`'s conversion to a new `asset_store`) does the same with the fresh
store starting empty; and any successful sequence of moves among a set of
same-asset stores leaves the sum of all `amount()` values invariant. -/
theorem C2_conservation :
    (∀ (src dst s2 d2 : asset_store) (amt : share_type),
        (src.move amt).to dst = some (s2, d2) →
        s2.amount = src.amount - amt ∧ d2.amount = dst.amount + amt)
  ∧ (∀ (src s2 d2 : asset_store) (amt : share_type),
        (src.move amt).to_new_store = some (s2, d2) →
        s2.amount = src.amount - amt ∧ d2.amount = amt)
  ∧ (∀ (aid : AssetId) (stores stores2 : List asset_store) (ops : List move_op),
        (∀ st ∈ stores, st.asset_type = aid) →
        apply_moves stores ops = some stores2 →
        total_amount stores2 = total_amount stores) := by
  refine ⟨fun src dst s2 d2 amt h => ?_, fun src s2 d2 amt h => ?_,
          fun aid stores stores2 ops _ h => apply_moves_total ops stores stores2 h⟩
  · simp only [mover.to, asset_store.move] at h
    obtain ⟨h1, h2, -, -⟩ := transfer_amount_eq h
    exact ⟨h1, h2⟩
  · simp only [mover.to_new_store, asset_store.move] at h
    obtain ⟨h1, h2, -, -⟩ := transfer_amount_eq h
    refine ⟨h1, ?_⟩
    simpa [asset_store.mk_default, asset_store.amount] using h2

/-- Witness for C2: stores of 5 and 3 units of asset 1; moving 2 units from
store 0 to store 1 and then 4 units from store 1 into a fresh store preserves
the total of 8. -/
theorem C2_conservation_witness :
    total_amount [⟨⟨3, 1⟩, false⟩, ⟨⟨1, 1⟩, false⟩, ⟨⟨4, 1⟩, false⟩]
      = total_amount example_stores :=
  C2_conservation.2.2 1 example_stores
    [⟨⟨3, 1⟩, false⟩, ⟨⟨1, 1⟩, false⟩, ⟨⟨4, 1⟩, false⟩] example_moves
    (by decide) (by decide)

/-- C8: `get_sink_asset` dispatches by sink variant: `SameTank` yields the
current tank's asset type; `Account` yields "any asset accepted"; `Tank(id)`
looks up the tank and yields its asset type, propagating the lookup errors
unchanged; `Attachment(id)` resolves the attachment, propagating the lookup
errors unchanged, and yields its declared `receives_asset`, or `NoAsset(id)`
when it declares none. -/
theorem C8_get_sink_asset_dispatch (u : lookup_utilities) (a : AccountId)
    (t : TankId) (id : attachment_id_type) :
    (u.get_sink_asset .same_tank = .asset_id u.current_tank.asset_type)
  ∧ (u.get_sink_asset (.account a) = .any_asset)
  ∧ (∀ sch, u.lookup_tank (some t) = .success sch →
       u.get_sink_asset (.tank t) = .asset_id sch.asset_type)
  ∧ (u.lookup_tank (some t) = .need_lookup_function →
       u.get_sink_asset (.tank t) = .need_lookup_function)
  ∧ (∀ o, u.lookup_tank (some t) = .nonexistent_object o →
       u.get_sink_asset (.tank t) = .nonexistent_object o)
  ∧ (∀ att x, u.lookup_attachment id = .success att →
       att.receives_asset = some x →
       u.get_sink_asset (.attachment id) = .asset_id x)
  ∧ (∀ att, u.lookup_attachment id = .success att →
       att.receives_asset = none →
       u.get_sink_asset (.attachment id) = .no_asset id)
  ∧ (u.lookup_attachment id = .need_lookup_function →
       u.get_sink_asset (.attachment id) = .need_lookup_function)
  ∧ (∀ o, u.lookup_attachment id = .nonexistent_object o →
       u.get_sink_asset (.attachment id) = .nonexistent_object o) := by
  refine ⟨rfl, rfl, fun sch h => ?_, fun h => ?_, fun o h => ?_,
          fun att x h hx => ?_, fun att h hx => ?_, fun h => ?_, fun o h => ?_⟩
  · simp [lookup_utilities.get_sink_asset, h]
  · simp [lookup_utilities.get_sink_asset, h]
  · simp [lookup_utilities.get_sink_asset, h]
  · simp [lookup_utilities.get_sink_asset, lookup_utilities.get_attachment_asset,
          attachment_asset.to_sink_asset, h, hx]
  · simp [lookup_utilities.get_sink_asset, lookup_utilities.get_attachment_asset,
          attachment_asset.to_sink_asset, h, hx]
  · simp [lookup_utilities.get_sink_asset, lookup_utilities.get_attachment_asset,
          attachment_asset.to_sink_asset, h]
  · simp [lookup_utilities.get_sink_asset, lookup_utilities.get_attachment_asset,
          attachment_asset.to_sink_asset, h]

/-- Witness for C8: on `tank2_utils`, tank 2 exists with asset type 1 and
`get_sink_asset` yields it. -/
theorem C8_get_sink_asset_dispatch_witness :
    tank2_utils.get_sink_asset (.tank 2) = .asset_id 1 :=
  (C8_get_sink_asset_dispatch tank2_utils 0 2 ⟨none, 0⟩).2.2.1
    ⟨1, fun _ => none⟩ rfl

/-- C5 counterexample: the claim says that whenever `get_tank` is absent and a
resolution query must dereference another tank, `resolve_chain` returns
`NeedLookupFunction` rather than succeeding. But with no `get_tank`, a
required asset, and the cross-tank start sink `tank 5` — whose asset
compatibility can only be decided by dereferencing tank 5 — `get_sink_chain`
returns a successful chain: `check_asset` (lookups.cpp line 116) deliberately
treats `need_lookup_function` as a pass. -/
theorem C5_counterexample :
    no_lookup_utils.get_sink_chain (.tank 5) 3 (some 0)
      = .chain ⟨[.tank 5], none⟩
    ∧ no_lookup_utils.get_sink_asset (.tank 5) = .need_lookup_function := by
  exact ⟨by decide, by decide⟩

/-- C5 (amended): with `get_tank` absent, `get_sink_asset` on a cross-tank
sink (another tank, or an attachment of another tank) returns
`NeedLookupFunction`, and `get_sink_chain` returns `NeedLookupFunction`
whenever the walk must dereference another tank to resolve an attachment and
continue; only the optional asset-compatibility checks tolerate the missing
capability. -/
theorem C5_lookup_propagation (u : lookup_utilities) (t : TankId) (i m : Nat)
    (req : Option AssetId) (hu : u.get_tank = none) (hm : 1 ≤ m) :
    u.get_sink_asset (.tank t) = .need_lookup_function
    ∧ u.get_sink_asset (.attachment ⟨some t, i⟩) = .need_lookup_function
    ∧ u.get_sink_chain (.attachment ⟨some t, i⟩) m req
        = .need_lookup_function := by
  have hlt : u.lookup_tank (some t) = .need_lookup_function := by
    simp [lookup_utilities.lookup_tank, hu]
  have hla : u.lookup_attachment ⟨some t, i⟩ = .need_lookup_function := by
    simp [lookup_utilities.lookup_attachment, hlt]
  have hga : u.get_attachment_asset ⟨some t, i⟩ = .need_lookup_function := by
    simp [lookup_utilities.get_attachment_asset, hla]
  have hsa : u.get_sink_asset (.attachment ⟨some t, i⟩)
      = .need_lookup_function := by
    simp [lookup_utilities.get_sink_asset, hga, attachment_asset.to_sink_asset]
  have hck : u.check_asset req (.attachment ⟨some t, i⟩) = none := by
    cases req <;> simp [lookup_utilities.check_asset, hsa]
  have hgs : u.get_attachment_sink ⟨some t, i⟩ = .need_lookup_function := by
    simp [lookup_utilities.get_attachment_sink, hla]
  refine ⟨by simp [lookup_utilities.get_sink_asset, hlt], hsa, ?_⟩
  obtain ⟨m2, rfl⟩ : ∃ m2, m = m2 + 1 := ⟨m - 1, by omega⟩
  simp [lookup_utilities.get_sink_chain, hck,
        lookup_utilities.get_sink_chain_go, hgs]

/-- Witness for C5 (amended): with no lookup capability, resolving a chain
from attachment 0 of tank 9 fails with `NeedLookupFunction`. -/
theorem C5_lookup_propagation_witness :
    no_lookup_utils.get_sink_chain (.attachment ⟨some 9, 0⟩) 3 (some 0)
      = .need_lookup_function :=
  (C5_lookup_propagation no_lookup_utils 9 0 3 (some 0) rfl (by decide)).2.2

lemma key_lt_imp_le {a b : Nat × Nat} (h : key_lt a b = true) : a.1 ≤ b.1 := by
  simp only [key_lt, Bool.or_eq_true, Bool.and_eq_true, decide_eq_true_eq] at h
  omega

lemma key_lt_zero (k : Nat × Nat) (t : Nat) :
    key_lt k (t, 0) = decide (k.1 < t) := by
  simp [key_lt]

lemma dropWhile_eq_filter_of_sorted :
    ∀ (l : List ((Nat × Nat) × Nat)) (t : Nat), states_sorted l →
    (∀ x ∈ l, t ≤ x.1.1) →
    l.dropWhile (fun e => e.1.1 == t) = l.filter (fun e => e.1.1 != t)
  | [], _, _, _ => rfl
  | x :: l, t, hs, hb => by
    obtain ⟨h1, h2⟩ := List.pairwise_cons.mp hs
    by_cases hx : x.1.1 = t
    · have ih := dropWhile_eq_filter_of_sorted l t h2
        (fun y hy => hb y (List.mem_cons_of_mem x hy))
      simp [List.dropWhile_cons, List.filter_cons, hx, ih]
    · have hxgt : t < x.1.1 := lt_of_le_of_ne (hb x (List.mem_cons_self x l)) (Ne.symm hx)
      have hrest : ∀ y ∈ l, (y.1.1 != t) = true := by
        intro y hy
        have := key_lt_imp_le (h1 y hy)
        simp only [bne_iff_ne, ne_eq]
        omega
      simp [List.dropWhile_cons, List.filter_cons, hx,
            List.filter_eq_self.mpr hrest]

lemma clear_tap_state_eq_filter :
    ∀ (l : List ((Nat × Nat) × Nat)) (t : Nat), states_sorted l →
    (tank_object.clear_tap_state ⟨l⟩ t).requirement_states
      = l.filter (fun e => e.1.1 != t)
  | [], _, _ => rfl
  | e :: l, t, hs => by
    obtain ⟨h1, h2⟩ := List.pairwise_cons.mp hs
    have hstep : (tank_object.clear_tap_state ⟨e :: l⟩ t).requirement_states
        = (e :: l).takeWhile (fun x => key_lt x.1 (t, 0))
          ++ ((e :: l).dropWhile (fun x => key_lt x.1 (t, 0))).dropWhile
               (fun x => x.1.1 == t) := rfl
    by_cases he : e.1.1 < t
    · have hp : (fun x : (Nat × Nat) × Nat => key_lt x.1 (t, 0)) e = true := by
        simp [key_lt_zero, he]
      have hne : (e.1.1 != t) = true := by
        simp only [bne_iff_ne, ne_eq]; omega
      have ih := clear_tap_state_eq_filter l t h2
      rw [hstep,
          @List.takeWhile_cons_of_pos _ (fun x => key_lt x.1 (t, 0)) e l hp,
          @List.dropWhile_cons_of_pos _ (fun x => key_lt x.1 (t, 0)) e l hp,
          @List.filter_cons_of_pos _ (fun x => x.1.1 != t) e l hne,
          List.cons_append]
      exact congrArg (List.cons e) ih
    · have hp : ¬ (fun x : (Nat × Nat) × Nat => key_lt x.1 (t, 0)) e = true := by
        simp [key_lt_zero, he]
      have hb : ∀ x ∈ e :: l, t ≤ x.1.1 := by
        intro x hx
        rcases List.mem_cons.mp hx with rfl | hx2
        · omega
        · have := key_lt_imp_le (h1 x hx2)
          omega
      have hdw := dropWhile_eq_filter_of_sorted (e :: l) t hs hb
      rw [hstep,
          @List.takeWhile_cons_of_neg _ (fun x => key_lt x.1 (t, 0)) e l hp,
          @List.dropWhile_cons_of_neg _ (fun x => key_lt x.1 (t, 0)) e l hp,
          List.nil_append]
      exact hdw

/-- C9: on a key-sorted `requirement_states` map, `clear_tap_state(t)` removes
exactly the entries whose key's tap-index component equals `t` (it equals a
filter on the tap index) and leaves every other entry unchanged, and running
it a second time changes nothing. -/
theorem C9_clear_tap_state (o : tank_object) (t : Nat)
    (hs : states_sorted o.requirement_states) :
    (o.clear_tap_state t).requirement_states
      = o.requirement_states.filter (fun e => e.1.1 != t)
    ∧ (o.clear_tap_state t).clear_tap_state t = o.clear_tap_state t := by
  obtain ⟨l⟩ := o
  have h1 := clear_tap_state_eq_filter l t hs
  refine ⟨h1, ?_⟩
  have h2 : tank_object.clear_tap_state ⟨l⟩ t
      = (⟨l.filter (fun e => e.1.1 != t)⟩ : tank_object) :=
    congrArg tank_object.mk h1
  have hsf : states_sorted (l.filter (fun e => e.1.1 != t)) := hs.filter _
  have h3 := clear_tap_state_eq_filter (l.filter (fun e => e.1.1 != t)) t hsf
  have h4 : (l.filter (fun e => e.1.1 != t)).filter (fun e => e.1.1 != t)
      = l.filter (fun e => e.1.1 != t) :=
    List.filter_eq_self.mpr (fun a ha => (List.mem_filter.mp ha).2)
  rw [h2]
  exact congrArg tank_object.mk (h3.trans h4)

/-- Witness for C9: from keys (0,0),(0,1),(1,0),(2,0), clearing tap 0 leaves
exactly the entries for taps 1 and 2, and clearing again is a no-op. -/
theorem C9_clear_tap_state_witness :
    (example_tank.clear_tap_state 0).requirement_states
      = [((1, 0), 12), ((2, 0), 13)]
    ∧ (example_tank.clear_tap_state 0).clear_tap_state 0
      = example_tank.clear_tap_state 0 :=
  ⟨(C9_clear_tap_state example_tank 0 (by decide)).1.trans (by decide),
   (C9_clear_tap_state example_tank 0 (by decide)).2⟩

lemma cycle_go : ∀ (budget L i : Nat) (rest : List sink) (s : sink),
    0 < L → i < L →
    (cycle_utils L).get_sink_chain_go none rest (.attachment ⟨none, i⟩) none s
        budget
      = .exceeded_max_chain_length
  | 0, L, i, rest, s, hL, hi => by
    simp [lookup_utilities.get_sink_chain_go]
  | b+1, L, i, rest, s, hL, hi => by
    have ih := cycle_go b L ((i+1) % L) (.attachment ⟨none, i⟩ :: rest)
      (.attachment ⟨none, i⟩) hL (Nat.mod_lt _ hL)
    simp only [lookup_utilities.get_sink_chain_go,
               lookup_utilities.get_attachment_sink,
               lookup_utilities.lookup_attachment,
               lookup_utilities.lookup_tank,
               lookup_utilities.check_asset, cycle_utils, hi, if_true]
    exact ih

lemma line_go : ∀ (b L i : Nat) (rest : List sink) (s : sink),
    i < L → L - i ≤ b →
    (line_utils L).get_sink_chain_go none rest (.attachment ⟨none, i⟩) none s b
      = .chain ⟨rest.reverse
          ++ (List.range (L - i)).map (fun k => .attachment ⟨none, i + k⟩)
          ++ [.account 0], none⟩
  | 0, L, i, rest, s, hi, hb => by omega
  | b+1, L, i, rest, s, hi, hb => by
    by_cases h2 : i + 1 < L
    · have ih := line_go b L (i+1) (.attachment ⟨none, i⟩ :: rest)
        (.attachment ⟨none, i⟩) h2 (by omega)
      simp only [lookup_utilities.get_sink_chain_go,
                 lookup_utilities.get_attachment_sink,
                 lookup_utilities.lookup_attachment,
                 lookup_utilities.lookup_tank,
                 lookup_utilities.check_asset, line_utils, hi, h2, if_true]
      refine Eq.trans (by exact ih) ?_
      have hsplit : L - i = (L - (i+1)) + 1 := by omega
      have hmap : (List.range (L - i)).map
            (fun k => (sink.attachment ⟨none, i + k⟩ : sink))
          = sink.attachment ⟨none, i⟩
            :: (List.range (L - (i+1))).map
                 (fun k => sink.attachment ⟨none, i + 1 + k⟩) := by
        rw [hsplit, List.range_succ_eq_map, List.map_cons, List.map_map]
        refine congrArg (List.cons _) ?_
        refine List.map_congr_left (fun k _ => ?_)
        simp only [Function.comp_apply, sink.attachment.injEq,
                   attachment_id_type.mk.injEq, true_and]
        omega
      rw [hmap, List.reverse_cons]
      simp [List.append_assoc]
    · have hL1 : L - i = 1 := by omega
      simp only [lookup_utilities.get_sink_chain_go,
                 lookup_utilities.get_attachment_sink,
                 lookup_utilities.lookup_attachment,
                 lookup_utilities.lookup_tank,
                 lookup_utilities.check_asset, line_utils, hi, h2, if_true,
                 if_false, hL1, List.reverse_cons]
      simp [List.range_succ, List.append_assoc]

/-- C4: on a pure redirection cycle of length `L`, `resolve_chain` returns
`ExceededMaxChainLength` whenever `max_length < L` (indeed for every
`max_length`, since the walk never terminates); on a straight redirection
line of `L` attachments ending in an account, with `L ≤ max_length`, it
returns the fully resolved chain; and on the spec's concrete example — tank
7's attachment 0 redirecting to attachment 1 and attachment 1 back to
attachment 0, with `max_length = 2` — it returns `ExceededMaxChainLength`. -/
theorem C4_chain_termination (L m : Nat) :
    (0 < L → m < L →
       (cycle_utils L).get_sink_chain (.attachment ⟨none, 0⟩) m none
         = .exceeded_max_chain_length)
  ∧ (0 < L → L ≤ m →
       (line_utils L).get_sink_chain (.attachment ⟨none, 0⟩) m none
         = .chain ⟨line_chain L, none⟩)
  ∧ cycle2_utils.get_sink_chain (.attachment ⟨some 7, 0⟩) 2 none
      = .exceeded_max_chain_length := by
  refine ⟨fun hL hm => ?_, fun hL hm => ?_, by decide⟩
  · have h := cycle_go m L 0 [] (.attachment ⟨none, 0⟩) hL hL
    simpa [lookup_utilities.get_sink_chain, lookup_utilities.check_asset]
      using h
  · have h := line_go m L 0 [] (.attachment ⟨none, 0⟩) hL (by omega)
    simp only [lookup_utilities.get_sink_chain, lookup_utilities.check_asset]
    rw [h]
    simp [line_chain]

/-- Witness for C4: a 2-cycle with `max_length = 1` exceeds; a 2-line with
`max_length = 2` resolves fully. -/
theorem C4_chain_termination_witness :
    (cycle_utils 2).get_sink_chain (.attachment ⟨none, 0⟩) 1 none
      = .exceeded_max_chain_length
    ∧ (line_utils 2).get_sink_chain (.attachment ⟨none, 0⟩) 2 none
      = .chain ⟨line_chain 2, none⟩ :=
  ⟨(C4_chain_termination 2 1).1 (by decide) (by decide),
   (C4_chain_termination 2 2).2.1 (by decide) (by decide)⟩

lemma wrong_hop_go : ∀ (b n i : Nat) (x y : AssetId) (rest : List sink)
    (s : sink), x ≠ y → i ≤ n → n - i < b →
    (wrong_hop_utils n x y).get_sink_chain_go (some y) rest
        (.attachment ⟨none, i⟩) none s b
      = .bad_sink ⟨.receives_wrong_asset, .sink (.attachment ⟨none, n⟩)⟩
  | 0, n, i, x, y, rest, s, hxy, hin, hb => by omega
  | b+1, n, i, x, y, rest, s, hxy, hin, hb => by
    by_cases hlt : i < n
    · have ih := wrong_hop_go b n (i+1) x y (.attachment ⟨none, i⟩ :: rest)
        (.attachment ⟨none, i⟩) hxy (by omega) (by omega)
      simp only [lookup_utilities.get_sink_chain_go,
                 lookup_utilities.get_attachment_sink,
                 lookup_utilities.get_attachment_asset,
                 lookup_utilities.lookup_attachment,
                 lookup_utilities.lookup_tank,
                 lookup_utilities.get_sink_asset,
                 attachment_asset.to_sink_asset,
                 lookup_utilities.check_asset,
                 wrong_hop_utils, hlt, if_true]
      simpa using ih
    · have hieq : i = n := by omega
      subst hieq
      simp only [lookup_utilities.get_sink_chain_go,
                 lookup_utilities.get_attachment_sink,
                 lookup_utilities.get_attachment_asset,
                 lookup_utilities.lookup_attachment,
                 lookup_utilities.lookup_tank,
                 lookup_utilities.get_sink_asset,
                 attachment_asset.to_sink_asset,
                 lookup_utilities.check_asset,
                 wrong_hop_utils, hlt, if_false]
      simp [hxy]

/-- C6: on a chain whose terminal sink is an account (which accepts any asset)
but which passes through the intermediate attachment `n` declaring
`receives_asset = Some(x)` with `x ≠ y`, resolving with required asset `y`
fails with `BadSink(ReceivesWrongAsset)` carrying that attachment sink as the
offending subject — the walk never completes the chain. -/
theorem C6_wrong_asset_hop (n m : Nat) (x y : AssetId)
    (hxy : x ≠ y) (hn : 1 ≤ n) (hm : n + 1 ≤ m) :
    (wrong_hop_utils n x y).get_sink_chain (.attachment ⟨none, 0⟩) m (some y)
      = .bad_sink ⟨.receives_wrong_asset, .sink (.attachment ⟨none, n⟩)⟩
    ∧ (wrong_hop_utils n x y).get_sink_asset (.account 0) = .any_asset := by
  refine ⟨?_, rfl⟩
  have h := wrong_hop_go m n 0 x y [] (.attachment ⟨none, 0⟩) hxy
    (by omega) (by omega)
  have h0 : 0 < n := hn
  have hck : (wrong_hop_utils n x y).check_asset (some y)
      (.attachment ⟨none, 0⟩) = none := by
    simp [lookup_utilities.check_asset, lookup_utilities.get_sink_asset,
          lookup_utilities.get_attachment_asset,
          lookup_utilities.lookup_attachment, lookup_utilities.lookup_tank,
          attachment_asset.to_sink_asset, wrong_hop_utils, h0]
  simp only [lookup_utilities.get_sink_chain, hck]
  exact h

/-- Witness for C6: one pass-through attachment, then an attachment accepting
asset 1 while asset 0 is required, then an account. -/
theorem C6_wrong_asset_hop_witness :
    (wrong_hop_utils 1 1 0).get_sink_chain (.attachment ⟨none, 0⟩) 5 (some 0)
      = .bad_sink ⟨.receives_wrong_asset, .sink (.attachment ⟨none, 1⟩)⟩ :=
  (C6_wrong_asset_hop 1 5 1 0 (by decide) (by decide) (by decide)).1

lemma check_asset_ne_chain (u : lookup_utilities) (req : Option AssetId)
    (s : sink) (c : sink_chain) :
    u.check_asset req s ≠ some (.chain c) := by
  cases req with
  | none => simp [lookup_utilities.check_asset]
  | some y =>
    cases hgs : u.get_sink_asset s with
    | asset_id a =>
      by_cases hay : a = y <;> simp [lookup_utilities.check_asset, hgs, hay]
    | any_asset => simp [lookup_utilities.check_asset, hgs]
    | no_asset id2 => simp [lookup_utilities.check_asset, hgs]
    | need_lookup_function => simp [lookup_utilities.check_asset, hgs]
    | nonexistent_object o => simp [lookup_utilities.check_asset, hgs]

lemma go_terminal_chain : ∀ (b : Nat) (u : lookup_utilities)
    (req : Option AssetId) (rest : List sink) (last : sink)
    (ft : Option TankId) (s : sink) (c : sink_chain),
    is_terminal_sink last = true →
    u.get_sink_chain_go req rest last ft s b = .chain c →
    c = ⟨(last :: rest).reverse, ft⟩ := by
  intro b u req rest last ft s c hterm h
  cases last with
  | attachment aid => simp [is_terminal_sink] at hterm
  | same_tank =>
    simp only [lookup_utilities.get_sink_chain_go] at h
    rcases hck : u.check_asset req s with _ | r
    · rw [hck] at h
      simp only [sink_chain_result.chain.injEq] at h
      exact h.symm
    · rw [hck] at h
      exact absurd (h ▸ hck) (check_asset_ne_chain u req s c)
  | account a =>
    simp only [lookup_utilities.get_sink_chain_go] at h
    rcases hck : u.check_asset req s with _ | r
    · rw [hck] at h
      simp only [sink_chain_result.chain.injEq] at h
      exact h.symm
    · rw [hck] at h
      exact absurd (h ▸ hck) (check_asset_ne_chain u req s c)
  | tank t =>
    simp only [lookup_utilities.get_sink_chain_go] at h
    rcases hck : u.check_asset req s with _ | r
    · rw [hck] at h
      simp only [sink_chain_result.chain.injEq] at h
      exact h.symm
    · rw [hck] at h
      exact absurd (h ▸ hck) (check_asset_ne_chain u req s c)

lemma go_terminal_package {u : lookup_utilities} {req : Option AssetId}
    {rest : List sink} {last : sink} {ft : Option TankId} {s : sink}
    {c : sink_chain} (b : Nat) (hterm : is_terminal_sink last = true)
    (h : u.get_sink_chain_go req rest last ft s b = .chain c) :
    ∃ tail : List sink,
      c.sinks = rest.reverse ++ last :: tail
      ∧ (∀ x ∈ (last :: tail).dropLast, is_terminal_sink x = false)
      ∧ (∀ z, (last :: tail).getLast? = some z → is_terminal_sink z = true)
      ∧ (last :: tail).length ≤ b + 1 := by
  have hc := go_terminal_chain b u req rest last ft s c hterm h
  subst hc
  refine ⟨[], by simp, by simp, ?_, by simp⟩
  intro z hz
  simp only [List.getLast?_singleton, Option.some.injEq] at hz
  subst hz
  exact hterm

lemma go_chain_shape (b : Nat) : ∀ (u : lookup_utilities)
    (req : Option AssetId) (rest : List sink) (last : sink)
    (ft : Option TankId) (s : sink) (c : sink_chain),
    u.get_sink_chain_go req rest last ft s b = .chain c →
    ∃ tail : List sink,
      c.sinks = rest.reverse ++ last :: tail
      ∧ (∀ x ∈ (last :: tail).dropLast, is_terminal_sink x = false)
      ∧ (∀ z, (last :: tail).getLast? = some z → is_terminal_sink z = true)
      ∧ (last :: tail).length ≤ b + 1 := by
  induction b with
  | zero =>
    intro u req rest last ft s c h
    cases last with
    | attachment aid =>
      exact absurd h (by simp [lookup_utilities.get_sink_chain_go])
    | same_tank => exact go_terminal_package 0 rfl h
    | account a => exact go_terminal_package 0 rfl h
    | tank t => exact go_terminal_package 0 rfl h
  | succ b ih =>
    intro u req rest last ft s c h
    cases last with
    | same_tank => exact go_terminal_package (b+1) rfl h
    | account a => exact go_terminal_package (b+1) rfl h
    | tank t => exact go_terminal_package (b+1) rfl h
    | attachment aid =>
      simp only [lookup_utilities.get_sink_chain_go] at h
      split at h
      · exact absurd h (by simp)
      · exact absurd h (by simp)
      · exact absurd h (by simp)
      · rename_i next heq
        split at h
        · rename_i r hck
          exact absurd (h ▸ hck)
            (check_asset_ne_chain _ _ (sink.attachment aid) c)
        · obtain ⟨tail2, h1, h2, h3, h4⟩ :=
            ih u req (sink.attachment aid :: rest) next _ (sink.attachment aid) c h
          refine ⟨next :: tail2, ?_, ?_, ?_, ?_⟩
          · rw [h1, List.reverse_cons, List.append_assoc, List.singleton_append]
          · intro z hz
            rw [List.dropLast_cons₂] at hz
            rcases List.mem_cons.mp hz with rfl | hz2
            · rfl
            · exact h2 z hz2
          · intro z hz
            rw [List.getLast?_cons_cons] at hz
            exact h3 z hz
          · simpa using Nat.succ_le_succ h4

/-- C10: every successfully resolved chain begins with the start sink, every
sink before the last is non-terminal, the last sink is terminal, and the
chain holds at most `max_length + 1` sinks — and a successful chain of
exactly `max_length + 1` sinks is possible, since the length bound is only
tested before appending while the last sink is non-terminal. -/
theorem C10_chain_shape :
    (∀ (u : lookup_utilities) (s : sink) (m : Nat) (req : Option AssetId)
       (c : sink_chain), u.get_sink_chain s m req = .chain c →
       c.sinks.head? = some s
       ∧ (∀ x ∈ c.sinks.dropLast, is_terminal_sink x = false)
       ∧ (∀ z, c.sinks.getLast? = some z → is_terminal_sink z = true)
       ∧ c.sinks.length ≤ m + 1)
  ∧ (∃ (u : lookup_utilities) (s : sink) (m : Nat) (req : Option AssetId)
       (c : sink_chain), u.get_sink_chain s m req = .chain c
       ∧ c.sinks.length = m + 1) := by
  constructor
  · intro u s m req c h
    simp only [lookup_utilities.get_sink_chain] at h
    split at h
    · rename_i r hck
      exact absurd (h ▸ hck) (check_asset_ne_chain u req s c)
    · obtain ⟨tail, h1, h2, h3, h4⟩ := go_chain_shape m u req [] s none s c h
      rw [h1]
      simp only [List.reverse_nil, List.nil_append]
      exact ⟨rfl, h2, h3, h4⟩
  · exact ⟨line_utils 1, .attachment ⟨none, 0⟩, 1, none,
           ⟨[.attachment ⟨none, 0⟩, .account 0], none⟩, by decide, by decide⟩

/-- Witness for C10: the 1-line resolves with `max_length = 1` to a chain of
exactly 2 sinks, and the shape theorem applies to it. -/
theorem C10_chain_shape_witness :
    (⟨[.attachment ⟨none, 0⟩, .account 0], none⟩ : sink_chain).sinks.length
      ≤ 1 + 1 :=
  (C10_chain_shape.1 (line_utils 1) (.attachment ⟨none, 0⟩) 1 none
    ⟨[.attachment ⟨none, 0⟩, .account 0], none⟩ (by decide)).2.2.2

end TNT
